import Mathlib

/-!
Verification of the memory-virtualization core of a Game Boy emulator
(`src/memory.c`): bank switching (MBC1/MBC3/MBC5 families), I/O register
traps (joypad, serial, timer, DMA-to-OAM), high-memory code-cache
invalidation, and initialization resource handling.

The C code is shallowly embedded: the 64KiB guest memory and the RAM bank
store are total functions `Nat → Nat` holding byte values, machine
arithmetic is `Nat` with explicit masking where the C masks, and the
`munmap`/`mmap` pair used by a ROM bank switch is abstracted by a single
boolean `remapOk` (on any syscall failure the C function returns early
with every modelled field unchanged).
-/

namespace Jitboy

/-- Cartridge MBC variant, the enumerators dispatched by `gb_memory_write`.
`UNKNOWN` stands for any header byte not matched by the switch. -/
inductive MBC where
  | NONE
  | MBC1
  | MBC1_RAM_BAT
  | MBC2
  | MBC2_BAT
  | MBC3
  | MBC3_RAM_BAT
  | MBC3_TIMER_RAM_BAT
  | MBC5
  | MBC5_RAM_BAT
  | UNKNOWN
deriving DecidableEq

/-- Pointwise update of a byte array modelled as a function. -/
def memUpdate (m : Nat → Nat) (a v : Nat) : Nat → Nat :=
  fun x => if x = a then v else m x

/-- Guest-visible joypad state (`gb_keys.state`, a `uint8_t`). -/
structure gb_keys where
  state : Nat
deriving DecidableEq

/-- A JIT-compiled block as seen from the memory core: `exec_count` and
`end_address` are the fields read by the invalidation loop; `freed` records
that `free_block` has been called on it. -/
structure gb_block where
  exec_count : Nat
  end_address : Nat
  freed : Bool
deriving DecidableEq

/-- The modelled fields of `gb_memory`: the 64KiB view `mem`, the RAM bank
store `ram_banks` (flat, indexed by `bank * 0x2000 + offset`), the MBC
variant and its registers. -/
structure gb_memory where
  mem : Nat → Nat
  ram_banks : Nat → Nat
  mbc : MBC
  mbc_mode : Nat
  mbc_data : Nat
  current_rom_bank : Nat
  current_ram_bank : Nat
  rtc_access : Bool

/-- The state reached by `gb_memory_write`: the memory core, the key state,
and the high-memory block table of the enclosing VM. -/
structure gb_state where
  mem : gb_memory
  keys : gb_keys
  highmem_blocks : Nat → gb_block

/-- Embedding of `get_joypad_state`: build the active-low response byte
from the key nibbles enabled by the select mask, then complement it
(`~result` truncated to `uint8_t`). -/
def get_joypad_state (keys : gb_keys) (value : Nat) : Nat :=
  let k := keys.state % 256
  let r1 := if value &&& 0xef ≠ 0 then k &&& 0x0f else 0
  let r2 := if value &&& 0xdf ≠ 0 then k >>> 4 else 0
  0xff ^^^ (r1 ||| r2)

/-- Embedding of `gb_memory_change_ram_bank`: no-op when the bank is
already current; otherwise save the live window to the store unless the
RTC register is exposed there, load the requested bank into the window,
clear `rtc_access`, and record the new current bank. -/
def gb_memory_change_ram_bank (m : gb_memory) (bank : Nat) : gb_memory :=
  if m.current_ram_bank = bank then m
  else
    let rb :=
      if m.rtc_access then m.ram_banks
      else fun j =>
        if m.current_ram_bank * 0x2000 ≤ j ∧ j < m.current_ram_bank * 0x2000 + 0x2000
        then m.mem (0xa000 + (j - m.current_ram_bank * 0x2000))
        else m.ram_banks j
    let mm := fun a =>
      if 0xa000 ≤ a ∧ a < 0xc000
      then rb (bank * 0x2000 + (a - 0xa000))
      else m.mem a
    { m with ram_banks := rb, mem := mm, rtc_access := false, current_ram_bank := bank }

/-- Embedding of `gb_memory_change_rom_bank`: no-op when the bank is
already mapped; otherwise remap the switchable window. `remapOk` abstracts
the `munmap`/`mmap` pair: when either syscall fails the C function returns
early, leaving every modelled field unchanged. -/
def gb_memory_change_rom_bank (m : gb_memory) (bank : Nat) (remapOk : Bool) : gb_memory :=
  if m.current_rom_bank = bank then m
  else if remapOk then { m with current_rom_bank := bank }
  else m

/-- Embedding of `gb_memory_access_rtc`: expose the (stubbed, always 0)
RTC register at `0xa000` and set `rtc_access`. -/
def gb_memory_access_rtc (m : gb_memory) : gb_memory :=
  { m with mem := memUpdate m.mem 0xa000 0, rtc_access := true }

/-- The enumerators sharing the MBC1 `case` group of the dispatch switch. -/
def mbc1_family : MBC → Bool
  | MBC.MBC2_BAT => true
  | MBC.MBC2 => true
  | MBC.MBC1_RAM_BAT => true
  | MBC.MBC1 => true
  | _ => false

/-- The enumerators sharing the MBC3 `case` group of the dispatch switch. -/
def mbc3_family : MBC → Bool
  | MBC.MBC3_TIMER_RAM_BAT => true
  | MBC.MBC3_RAM_BAT => true
  | MBC.MBC3 => true
  | _ => false

/-- The enumerators sharing the MBC5 `case` group of the dispatch switch. -/
def mbc5_family : MBC → Bool
  | MBC.MBC5_RAM_BAT => true
  | MBC.MBC5 => true
  | _ => false

/-- The 5-bit zero-bank adjustment of the MBC1 ROM-bank register: the C
code ORs 1 into the composed bank when its low 5 bits are all zero. -/
def mbc1_adjust (bank : Nat) : Nat :=
  if bank &&& 0x1f = 0 then bank ||| 1 else bank

/-- The ROM bank composed by an MBC1-family write to `[0x2000,0x4000)`:
low 5 bits from the written value, upper bits from the latched
`mbc_data` unless RAM-banking mode is on, then the zero-bank adjustment. -/
def mbc1_compose (m : gb_memory) (value : Nat) : Nat :=
  mbc1_adjust ((value &&& 0x1f) ||| (if m.mbc_mode ≠ 0 then 0 else m.mbc_data &&& 0x60))

/-- Body of `gb_memory_write` after the entry masks `addr &= 0xffff` and
`value &= 0xff`: dispatches writes below `0x8000` to the MBC state machine
(switch groups in source order: MBC1 family, MBC3 family, MBC5 family;
`MBC_NONE` and unrecognized variants change no state), traps `0xff05`,
`0xff00`, `0xff01` and `0xff46`, runs the code-cache invalidation scan for
`addr ≥ 0xff80`, and falls through to a plain store. -/
def gb_memory_write_body (s : gb_state) (addr value : Nat) (remapOk : Bool) : gb_state :=
  if addr < 0x8000 then
    if mbc1_family s.mem.mbc then
      if 0x6000 ≤ addr then
        { s with mem := { s.mem with mbc_mode := value &&& 0x01 } }
      else if 0x4000 ≤ addr then
        if s.mem.mbc_mode ≠ 0 then
          { s with mem := gb_memory_change_ram_bank s.mem value }
        else
          { s with mem := { s.mem with mbc_data := value <<< 5 } }
      else if 0x2000 ≤ addr then
        { s with mem := gb_memory_change_rom_bank s.mem (mbc1_compose s.mem value) remapOk }
      else s
    else if mbc3_family s.mem.mbc then
      if 0x6000 ≤ addr then
        s
      else if 0x4000 ≤ addr then
        if value ≤ 4 then
          { s with mem := gb_memory_change_ram_bank s.mem value }
        else
          { s with mem := gb_memory_access_rtc s.mem }
      else if 0x2000 ≤ addr then
        { s with mem := gb_memory_change_rom_bank s.mem (if value &&& 0x7f = 0 then 1 else value &&& 0x7f) remapOk }
      else s
    else if mbc5_family s.mem.mbc then
      if 0x4000 ≤ addr then
        { s with mem := gb_memory_change_ram_bank s.mem value }
      else if 0x2000 ≤ addr then
        { s with mem := gb_memory_change_rom_bank s.mem value remapOk }
      else s
    else s
  else if addr = 0xff05 then
    { s with mem := { s.mem with mem := memUpdate s.mem.mem addr 0 } }
  else if addr = 0xff00 then
    { s with mem := { s.mem with mem := memUpdate s.mem.mem addr (get_joypad_state s.keys value) } }
  else if addr = 0xff01 then
    s
  else if addr = 0xff46 then
    let m1 := memUpdate s.mem.mem addr value
    let m2 := fun a =>
      if 0xfe00 ≤ a ∧ a < 0xfea0 then m1 ((value <<< 8) + (a - 0xfe00)) else m1 a
    { s with mem := { s.mem with mem := m2 } }
  else if 0xff80 ≤ addr then
    let blocks := fun i =>
      if i < addr - 0xff80 ∧ (s.highmem_blocks i).exec_count ≠ 0 ∧
          (s.highmem_blocks i).end_address > addr
      then { s.highmem_blocks i with freed := true, exec_count := 0 }
      else s.highmem_blocks i
    { s with
      highmem_blocks := blocks,
      mem := { s.mem with mem := memUpdate s.mem.mem addr value } }
  else
    { s with mem := { s.mem with mem := memUpdate s.mem.mem addr value } }

/-- Embedding of `gb_memory_write`, the single guest-store entry point:
the C function first masks `addr &= 0xffff` and `value &= 0xff`, then
runs the dispatch body. -/
def gb_memory_write (s : gb_state) (addr value : Nat) (remapOk : Bool) : gb_state :=
  gb_memory_write_body s (addr % 0x10000) (value % 0x100) remapOk

/-- The `gb_memory` field state established by `gb_memory_init` over an
arbitrary mapped ROM image `rom`, an arbitrary (uninitialized `malloc`)
bank store `rb`, and the variant decoded from the header byte. -/
def initMemory (rom rb : Nat → Nat) (mbc : MBC) : gb_memory :=
  { mem := rom, ram_banks := rb, mbc := mbc, mbc_mode := 0, mbc_data := 0,
    current_rom_bank := 1, current_ram_bank := 0, rtc_access := false }

/-- A freshly initialized session: memory from `gb_memory_init`, some key
state, some block table. -/
def initState (rom rb : Nat → Nat) (mbc : MBC) (k : Nat) (blocks : Nat → gb_block) : gb_state :=
  { mem := initMemory rom rb mbc, keys := { state := k }, highmem_blocks := blocks }

/-- A concrete all-zero session used by witnesses and counterexamples. -/
def zeroState (mbc : MBC) : gb_state :=
  initState (fun _ => 0) (fun _ => 0) mbc 0 (fun _ => { exec_count := 0, end_address := 0, freed := false })

/-- The states of the memory core reachable from initialization under
guest writes. `init` covers `gb_memory_init` over any ROM image, any
`malloc` contents of the bank store, any decoded variant, any key state
and any block table; `step` is one call of `gb_memory_write`, with the
`munmap`/`mmap` outcome of a possible ROM bank switch left free. -/
inductive Reach : gb_state → Prop where
  | init : ∀ (rom rb : Nat → Nat) (mbc : MBC) (k : Nat) (blocks : Nat → gb_block),
      Reach (initState rom rb mbc k blocks)
  | step : ∀ (s : gb_state) (addr value : Nat) (remapOk : Bool),
      Reach s → Reach (gb_memory_write s addr value remapOk)

/-- Resources still held when `gb_memory_init` returns: the opened file
descriptor and the two `mmap` regions. -/
structure InitResources where
  ok : Bool
  fdOpen : Bool
  map1 : Bool
  map2 : Bool
deriving DecidableEq

/-- Resource effect of `gb_memory_init`, path by path from the source:
with no filename one anonymous mapping is attempted (`map1`); with a
filename the file is opened, the 32KiB read-only mapping (`map1`) and
then the 32KiB anonymous mapping (`map2`) are attempted. Each `return
false` in the C function is a bare return: no `close` and no `munmap` is
executed on any failure path, so whatever was acquired stays held. -/
def gb_memory_init_resources (hasFile openOk map1Ok map2Ok : Bool) : InitResources :=
  if hasFile then
    if !openOk then { ok := false, fdOpen := false, map1 := false, map2 := false }
    else if !map1Ok then { ok := false, fdOpen := true, map1 := false, map2 := false }
    else if !map2Ok then { ok := false, fdOpen := true, map1 := true, map2 := false }
    else { ok := true, fdOpen := true, map1 := true, map2 := true }
  else
    if !map1Ok then { ok := false, fdOpen := false, map1 := false, map2 := false }
    else { ok := true, fdOpen := false, map1 := true, map2 := false }

/-! Basic lemmas about the bank-switch helpers. -/

lemma change_rom_bank_current (m : gb_memory) (bank : Nat) :
    (gb_memory_change_rom_bank m bank true).current_rom_bank = bank := by
  unfold gb_memory_change_rom_bank
  by_cases h : m.current_rom_bank = bank
  · rw [if_pos h]; exact h
  · rw [if_neg h]; rfl

lemma change_rom_bank_ne_zero (m : gb_memory) (bank : Nat) (ok : Bool)
    (hb : bank ≠ 0) (h : m.current_rom_bank ≠ 0) :
    (gb_memory_change_rom_bank m bank ok).current_rom_bank ≠ 0 := by
  unfold gb_memory_change_rom_bank
  split_ifs <;> first | exact h | exact hb

lemma change_ram_bank_rom (m : gb_memory) (bank : Nat) :
    (gb_memory_change_ram_bank m bank).current_rom_bank = m.current_rom_bank := by
  unfold gb_memory_change_ram_bank
  split <;> rfl

lemma change_ram_bank_mbc (m : gb_memory) (bank : Nat) :
    (gb_memory_change_ram_bank m bank).mbc = m.mbc := by
  unfold gb_memory_change_ram_bank
  split <;> rfl

lemma change_rom_bank_mbc (m : gb_memory) (bank : Nat) (ok : Bool) :
    (gb_memory_change_rom_bank m bank ok).mbc = m.mbc := by
  unfold gb_memory_change_rom_bank
  split_ifs <;> rfl

lemma access_rtc_mbc (m : gb_memory) : (gb_memory_access_rtc m).mbc = m.mbc := rfl

lemma access_rtc_rom (m : gb_memory) :
    (gb_memory_access_rtc m).current_rom_bank = m.current_rom_bank := rfl

lemma mbc1_adjust_ne_zero (b : Nat) : mbc1_adjust b ≠ 0 := by
  unfold mbc1_adjust
  split
  · intro h
    have := congrArg (fun x => Nat.testBit x 0) h
    simp at this
  · intro h0
    subst h0
    simp_all

lemma mbc1_family_of_mbc3 (m : MBC) (h : mbc3_family m = true) : mbc1_family m = false := by
  cases m <;> simp_all [mbc1_family, mbc3_family]

lemma mbc1_family_of_mbc5 (m : MBC) (h : mbc5_family m = true) : mbc1_family m = false := by
  cases m <;> simp_all [mbc1_family, mbc5_family]

lemma mbc3_family_of_mbc5 (m : MBC) (h : mbc5_family m = true) : mbc3_family m = false := by
  cases m <;> simp_all [mbc3_family, mbc5_family]

/-! Branch-selection lemmas for `gb_memory_write`: each one reduces a call
with an in-range address to the corresponding arm of the dispatch. -/

lemma write_unfold_mbc1_rom (s : gb_state) (addr v : Nat) (ok : Bool)
    (hmbc : mbc1_family s.mem.mbc = true)
    (h1 : 0x2000 ≤ addr) (h2 : addr < 0x4000) (hv : v < 256) :
    gb_memory_write s addr v ok =
      { s with mem := gb_memory_change_rom_bank s.mem (mbc1_compose s.mem v) ok } := by
  unfold gb_memory_write gb_memory_write_body
  rw [Nat.mod_eq_of_lt (show addr < 0x10000 by omega), Nat.mod_eq_of_lt hv,
    if_pos (show addr < 0x8000 by omega), if_pos hmbc,
    if_neg (show ¬ 0x6000 ≤ addr by omega), if_neg (show ¬ 0x4000 ≤ addr by omega),
    if_pos h1]

lemma write_unfold_mbc3_ram (s : gb_state) (addr v : Nat) (ok : Bool)
    (hmbc : mbc3_family s.mem.mbc = true)
    (h1 : 0x4000 ≤ addr) (h2 : addr < 0x6000) (hv : v ≤ 4) :
    gb_memory_write s addr v ok =
      { s with mem := gb_memory_change_ram_bank s.mem v } := by
  unfold gb_memory_write gb_memory_write_body
  rw [Nat.mod_eq_of_lt (show addr < 0x10000 by omega),
    Nat.mod_eq_of_lt (show v < 0x100 by omega),
    if_pos (show addr < 0x8000 by omega),
    if_neg ((mbc1_family_of_mbc3 s.mem.mbc hmbc) ▸ (by simp) : ¬ mbc1_family s.mem.mbc = true),
    if_pos hmbc, if_neg (show ¬ 0x6000 ≤ addr by omega), if_pos h1, if_pos hv]

lemma write_unfold_mbc5_rom (s : gb_state) (addr v : Nat) (ok : Bool)
    (hmbc : mbc5_family s.mem.mbc = true)
    (h1 : 0x2000 ≤ addr) (h2 : addr < 0x4000) (hv : v < 256) :
    gb_memory_write s addr v ok =
      { s with mem := gb_memory_change_rom_bank s.mem v ok } := by
  unfold gb_memory_write gb_memory_write_body
  rw [Nat.mod_eq_of_lt (show addr < 0x10000 by omega), Nat.mod_eq_of_lt hv,
    if_pos (show addr < 0x8000 by omega),
    if_neg ((mbc1_family_of_mbc5 s.mem.mbc hmbc) ▸ (by simp) : ¬ mbc1_family s.mem.mbc = true),
    if_neg ((mbc3_family_of_mbc5 s.mem.mbc hmbc) ▸ (by simp) : ¬ mbc3_family s.mem.mbc = true),
    if_pos hmbc, if_neg (show ¬ 0x4000 ≤ addr by omega), if_pos h1]

/-- Claim C7, counterexample: after a write of `0x42` to `0xff01` on the
all-zero session, the byte at `0xff01` is still `0`, not `0x42`: the
serial-data store is dropped, not performed. -/
theorem C7_counterexample :
    (gb_memory_write (zeroState MBC.NONE) 0xff01 0x42 true).mem.mem 0xff01 = 0 ∧
    (0 : Nat) ≠ 0x42 := by
  decide

/-- Claim C7 (amended): a guest write to `0xff01` is accepted but acts as
a complete no-op: the value is discarded, the byte at `0xff01` keeps its
previous contents, and no other state changes. -/
theorem C7_serial_write_dropped (s : gb_state) (v : Nat) (ok : Bool) :
    gb_memory_write s 0xff01 v ok = s := by
  rfl

/-- Claim C5: under the MBC5 family, a write to `[0x2000,0x4000)` selects
the full written byte as the ROM bank with no masking and no zero-bank
quirk; in particular `write(0x2100, 0x00)` leaves `current_rom_bank = 0`. -/
theorem C5_mbc5_selects_full_byte (s : gb_state) (addr v : Nat)
    (hmbc : mbc5_family s.mem.mbc = true)
    (h1 : 0x2000 ≤ addr) (h2 : addr < 0x4000) (hv : v < 256) :
    (gb_memory_write s addr v true).mem.current_rom_bank = v ∧
    (gb_memory_write (zeroState MBC.MBC5) 0x2100 0 true).mem.current_rom_bank = 0 := by
  refine ⟨?_, by decide⟩
  rw [write_unfold_mbc5_rom s addr v true hmbc h1 h2 hv]
  exact change_rom_bank_current s.mem v

/-- Claim C5, witness: instantiates the MBC5 bank-select theorem at the
all-zero MBC5 session with a write of `7` to `0x2100`. -/
theorem C5_witness :
    mbc5_family (zeroState MBC.MBC5).mem.mbc = true ∧ (0x2000 : Nat) ≤ 0x2100 ∧
    (0x2100 : Nat) < 0x4000 ∧ (7 : Nat) < 256 ∧
    ((gb_memory_write (zeroState MBC.MBC5) 0x2100 7 true).mem.current_rom_bank = 7 ∧
     (gb_memory_write (zeroState MBC.MBC5) 0x2100 0 true).mem.current_rom_bank = 0) :=
  ⟨by decide, by decide, by decide, by decide,
    C5_mbc5_selects_full_byte (zeroState MBC.MBC5) 0x2100 7 (by decide) (by decide)
      (by decide) (by decide)⟩

/-- Claim C3, counterexample: with MBC1, mode 0 and upper bits latched to
`0x40` by a prior write of `0x02` to `0x4000`, writing `0x00` to `0x2100`
composes bank `0x40`, whose low 5 bits are zero; the code then selects
bank `0x41`, not the bank `1` the claim requires. -/
theorem C3_counterexample :
    (gb_memory_write (gb_memory_write (zeroState MBC.MBC1) 0x4000 0x02 true)
        0x2100 0x00 true).mem.current_rom_bank = 0x41 ∧
    (0x41 : Nat) ≠ 1 := by
  decide

/-- Claim C3 (amended): under the MBC1 family, a write of `v` to
`[0x2000,0x4000)` composes `bank = (v and 0x1f) or (mode set ? 0 :
upper_bits and 0x60)` and, when the low 5 bits of the composed bank are
zero, ORs 1 into it (which is bank 1 exactly when the latched upper bits
contribute nothing); the result becomes `current_rom_bank`. With no prior
`[0x4000,0x6000)` write, `write(0x2100, 0x00)` yields bank 1; after
`write(0x4000, 0x01)`, `write(0x2100, 0x05)` yields bank `0x25`. -/
theorem C3_mbc1_rom_bank_compose (s : gb_state) (addr v : Nat)
    (hmbc : mbc1_family s.mem.mbc = true)
    (h1 : 0x2000 ≤ addr) (h2 : addr < 0x4000) (hv : v < 256) :
    (gb_memory_write s addr v true).mem.current_rom_bank =
      (if ((v &&& 0x1f) ||| (if s.mem.mbc_mode ≠ 0 then 0 else s.mem.mbc_data &&& 0x60)) &&& 0x1f = 0
       then ((v &&& 0x1f) ||| (if s.mem.mbc_mode ≠ 0 then 0 else s.mem.mbc_data &&& 0x60)) ||| 1
       else ((v &&& 0x1f) ||| (if s.mem.mbc_mode ≠ 0 then 0 else s.mem.mbc_data &&& 0x60))) ∧
    (gb_memory_write (zeroState MBC.MBC1) 0x2100 0x00 true).mem.current_rom_bank = 1 ∧
    (gb_memory_write (gb_memory_write (zeroState MBC.MBC1) 0x4000 0x01 true)
        0x2100 0x05 true).mem.current_rom_bank = 0x25 := by
  refine ⟨?_, by decide, by decide⟩
  rw [write_unfold_mbc1_rom s addr v true hmbc h1 h2 hv]
  exact change_rom_bank_current s.mem (mbc1_compose s.mem v)

/-- Claim C3, witness: instantiates the MBC1 compose theorem at the
all-zero MBC1 session with a write of `0x05` to `0x2100`. -/
theorem C3_witness :
    mbc1_family (zeroState MBC.MBC1).mem.mbc = true ∧ (0x2000 : Nat) ≤ 0x2100 ∧
    (0x2100 : Nat) < 0x4000 ∧ (0x05 : Nat) < 256 ∧
    ((gb_memory_write (zeroState MBC.MBC1) 0x2100 0x05 true).mem.current_rom_bank =
      (if ((0x05 &&& 0x1f) ||| (if (zeroState MBC.MBC1).mem.mbc_mode ≠ 0 then 0 else (zeroState MBC.MBC1).mem.mbc_data &&& 0x60)) &&& 0x1f = 0
       then ((0x05 &&& 0x1f) ||| (if (zeroState MBC.MBC1).mem.mbc_mode ≠ 0 then 0 else (zeroState MBC.MBC1).mem.mbc_data &&& 0x60)) ||| 1
       else ((0x05 &&& 0x1f) ||| (if (zeroState MBC.MBC1).mem.mbc_mode ≠ 0 then 0 else (zeroState MBC.MBC1).mem.mbc_data &&& 0x60))) ∧
     (gb_memory_write (zeroState MBC.MBC1) 0x2100 0x00 true).mem.current_rom_bank = 1 ∧
     (gb_memory_write (gb_memory_write (zeroState MBC.MBC1) 0x4000 0x01 true)
        0x2100 0x05 true).mem.current_rom_bank = 0x25) :=
  ⟨by decide, by decide, by decide, by decide,
    C3_mbc1_rom_bank_compose (zeroState MBC.MBC1) 0x2100 0x05 (by decide) (by decide)
      (by decide) (by decide)⟩

/-- Claim C6: the claim states that a failed `gb_memory_init` releases
every previously acquired resource. Evaluating the resource model at the
failing inputs shows otherwise: when the file opens but the first mapping
fails, the function returns failure with the file descriptor still open;
when the second mapping fails, both the descriptor and the first mapping
are still held. -/
theorem C6_init_failure_leaks :
    (gb_memory_init_resources true true false false).ok = false ∧
    (gb_memory_init_resources true true false false).fdOpen = true ∧
    (gb_memory_init_resources true true true false).ok = false ∧
    (gb_memory_init_resources true true true false).fdOpen = true ∧
    (gb_memory_init_resources true true true false).map1 = true := by
  decide

/-- A session whose pressed-key state is `0x05` in the low nibble, used
by the joypad claims. -/
def joyState : gb_state :=
  { zeroState MBC.NONE with keys := { state := 0x05 } }

lemma write_unfold_joypad (s : gb_state) (v : Nat) (ok : Bool) :
    gb_memory_write s 0xff00 v ok =
      { s with mem := { s.mem with
          mem := memUpdate s.mem.mem 0xff00 (get_joypad_state s.keys (v % 0x100)) } } := by
  rfl

/-- Claim C8: a write of `v` to `0xff00` stores, not `v`, but the
complement of the OR of the key-state nibbles enabled by the select mask
(low nibble: the d-pad line, taken when `v` has any bit outside `0x10`;
high nibble: the buttons line, taken when `v` has any bit outside
`0x20`); with pressed keys `0x05`, writing `0x20` stores `0xfa`, the
8-bit complement of `0x05`, and writing `0x10` selects the other nibble
and stores the different byte `0xff`. -/
theorem C8_joypad_write (s : gb_state) (v : Nat) (ok : Bool) (hv : v < 256) :
    (gb_memory_write s 0xff00 v ok).mem.mem 0xff00 =
      0xff ^^^ ((if v &&& 0xef ≠ 0 then (s.keys.state % 256) &&& 0x0f else 0) |||
                (if v &&& 0xdf ≠ 0 then (s.keys.state % 256) >>> 4 else 0)) ∧
    (gb_memory_write joyState 0xff00 0x20 true).mem.mem 0xff00 = 0xfa ∧
    (0xfa : Nat) = 0xff ^^^ 0x05 ∧
    (gb_memory_write joyState 0xff00 0x10 true).mem.mem 0xff00 = 0xff ∧
    (0xfa : Nat) ≠ 0x20 ∧ (0xfa : Nat) ≠ 0xff := by
  refine ⟨?_, by decide, by decide, by decide, by decide, by decide⟩
  rw [write_unfold_joypad, Nat.mod_eq_of_lt hv]
  show memUpdate s.mem.mem 0xff00 (get_joypad_state s.keys v) 0xff00 = _
  rw [memUpdate, if_pos rfl]
  rfl

/-- Claim C8, witness: instantiates the joypad theorem at the pressed-key
state `0x05` with select value `0x20`. -/
theorem C8_witness :
    (0x20 : Nat) < 256 ∧
    ((gb_memory_write joyState 0xff00 0x20 true).mem.mem 0xff00 =
      0xff ^^^ ((if (0x20 : Nat) &&& 0xef ≠ 0 then (joyState.keys.state % 256) &&& 0x0f else 0) |||
                (if (0x20 : Nat) &&& 0xdf ≠ 0 then (joyState.keys.state % 256) >>> 4 else 0)) ∧
     (gb_memory_write joyState 0xff00 0x20 true).mem.mem 0xff00 = 0xfa ∧
     (0xfa : Nat) = 0xff ^^^ 0x05 ∧
     (gb_memory_write joyState 0xff00 0x10 true).mem.mem 0xff00 = 0xff ∧
     (0xfa : Nat) ≠ 0x20 ∧ (0xfa : Nat) ≠ 0xff) :=
  ⟨by decide, C8_joypad_write joyState 0x20 true (by decide)⟩

lemma write_unfold_dma (s : gb_state) (v : Nat) (ok : Bool) :
    gb_memory_write s 0xff46 v ok =
      { s with mem := { s.mem with mem := fun a =>
          if 0xfe00 ≤ a ∧ a < 0xfea0
          then (memUpdate s.mem.mem 0xff46 (v % 0x100)) (((v % 0x100) <<< 8) + (a - 0xfe00))
          else (memUpdate s.mem.mem 0xff46 (v % 0x100)) a } } := by
  rfl

/-- Claim C9: a write of `v` to `0xff46` synchronously copies the 160
bytes at `v <<< 8` into the OAM region: for every `i < 160` the byte at
`0xfe00 + i` afterwards equals the source byte at `(v <<< 8) + i` (taken
after the store of `v` to `0xff46`, which the C code performs first —
visible only when `v = 0xff`, where the source window covers `0xff46`),
and the byte at `0xff46` itself equals `v`. -/
theorem C9_dma_copy (s : gb_state) (v i : Nat) (ok : Bool)
    (hv : v < 256) (hi : i < 160) :
    (gb_memory_write s 0xff46 v ok).mem.mem (0xfe00 + i) =
      (if (v <<< 8) + i = 0xff46 then v else s.mem.mem ((v <<< 8) + i)) ∧
    (gb_memory_write s 0xff46 v ok).mem.mem 0xff46 = v := by
  rw [write_unfold_dma, Nat.mod_eq_of_lt hv]
  constructor
  · show (if 0xfe00 ≤ 0xfe00 + i ∧ 0xfe00 + i < 0xfea0
          then (memUpdate s.mem.mem 0xff46 v) ((v <<< 8) + (0xfe00 + i - 0xfe00))
          else (memUpdate s.mem.mem 0xff46 v) (0xfe00 + i)) = _
    rw [if_pos (by omega : (0xfe00 : Nat) ≤ 0xfe00 + i ∧ 0xfe00 + i < 0xfea0),
      Nat.add_sub_cancel_left, memUpdate]
  · show (if (0xfe00 : Nat) ≤ 0xff46 ∧ (0xff46 : Nat) < 0xfea0
          then (memUpdate s.mem.mem 0xff46 v) ((v <<< 8) + (0xff46 - 0xfe00))
          else (memUpdate s.mem.mem 0xff46 v) 0xff46) = _
    rw [if_neg (by omega : ¬((0xfe00 : Nat) ≤ 0xff46 ∧ (0xff46 : Nat) < 0xfea0)),
      memUpdate, if_pos rfl]

/-- A session holding 160 distinguishable bytes at `0x3000` (bytes are
the low 8 bits of the address), used by the DMA witness. -/
def dmaState : gb_state :=
  { zeroState MBC.NONE with mem := { (zeroState MBC.NONE).mem with mem := fun a => a % 256 } }

/-- Claim C9, witness: instantiates the DMA theorem at the distinguishable
memory with source page `0x30` and offset `7`. -/
theorem C9_witness :
    (0x30 : Nat) < 256 ∧ (7 : Nat) < 160 ∧
    ((gb_memory_write dmaState 0xff46 0x30 true).mem.mem (0xfe00 + 7) =
      (if ((0x30 : Nat) <<< 8) + 7 = 0xff46 then 0x30 else dmaState.mem.mem (((0x30 : Nat) <<< 8) + 7)) ∧
     (gb_memory_write dmaState 0xff46 0x30 true).mem.mem 0xff46 = 0x30) :=
  ⟨by decide, by decide, C9_dma_copy dmaState 0x30 7 true (by decide) (by decide)⟩

/-- Claim C10: when the RTC register is exposed (`rtc_access` true) and an
MBC3-family RAM-bank selection names the currently selected bank, the
equal-bank early return of `gb_memory_change_ram_bank` fires before any
RTC handling: the whole write is a no-op, so the window is not restored
from the bank store, `rtc_access` stays true, and every field of the
state is unchanged. -/
theorem C10_rtc_equal_bank_noop (s : gb_state) (addr v : Nat) (ok : Bool)
    (hmbc : mbc3_family s.mem.mbc = true) (_hrtc : s.mem.rtc_access = true)
    (h1 : 0x4000 ≤ addr) (h2 : addr < 0x6000) (hv : v ≤ 4)
    (heq : v = s.mem.current_ram_bank) :
    gb_memory_write s addr v ok = s := by
  rw [write_unfold_mbc3_ram s addr v ok hmbc h1 h2 hv]
  unfold gb_memory_change_ram_bank
  rw [if_pos heq.symm]

/-- An MBC3 session with the RTC register exposed and RAM bank 2 current,
used by the C10 witness. -/
def c10State : gb_state :=
  { mem := { mem := fun _ => 0, ram_banks := fun _ => 0, mbc := MBC.MBC3, mbc_mode := 0,
             mbc_data := 0, current_rom_bank := 1, current_ram_bank := 2, rtc_access := true },
    keys := { state := 0 },
    highmem_blocks := fun _ => { exec_count := 0, end_address := 0, freed := false } }

/-- Claim C10, witness: instantiates the RTC equal-bank no-op theorem at
an MBC3 session with `rtc_access` set and bank 2 selected, writing `2` to
`0x4000`. -/
theorem C10_witness :
    mbc3_family c10State.mem.mbc = true ∧ c10State.mem.rtc_access = true ∧
    (0x4000 : Nat) ≤ 0x4000 ∧ (0x4000 : Nat) < 0x6000 ∧ (2 : Nat) ≤ 4 ∧
    (2 : Nat) = c10State.mem.current_ram_bank ∧
    gb_memory_write c10State 0x4000 2 true = c10State :=
  ⟨by decide, by decide, by decide, by decide, by decide, by decide,
    C10_rtc_equal_bank_noop c10State 0x4000 2 true (by decide) (by decide) (by decide)
      (by decide) (by decide) (by decide)⟩

lemma write_unfold_highmem (s : gb_state) (addr v : Nat) (ok : Bool)
    (h1 : 0xff80 ≤ addr) (h2 : addr < 0x10000) :
    gb_memory_write s addr v ok =
      { s with
        highmem_blocks := fun i =>
          if i < addr - 0xff80 ∧ (s.highmem_blocks i).exec_count ≠ 0 ∧
              (s.highmem_blocks i).end_address > addr
          then { s.highmem_blocks i with freed := true, exec_count := 0 }
          else s.highmem_blocks i,
        mem := { s.mem with mem := memUpdate s.mem.mem addr (v % 0x100) } } := by
  unfold gb_memory_write gb_memory_write_body
  rw [Nat.mod_eq_of_lt h2,
    if_neg (show ¬ addr < 0x8000 by omega), if_neg (show ¬ addr = 0xff05 by omega),
    if_neg (show ¬ addr = 0xff00 by omega), if_neg (show ¬ addr = 0xff01 by omega),
    if_neg (show ¬ addr = 0xff46 by omega), if_pos h1]

lemma write_highmem_blocks (s : gb_state) (addr v : Nat) (ok : Bool)
    (h1 : 0xff80 ≤ addr) (h2 : addr < 0x10000) (i : Nat) :
    (gb_memory_write s addr v ok).highmem_blocks i =
      if i < addr - 0xff80 ∧ (s.highmem_blocks i).exec_count ≠ 0 ∧
          (s.highmem_blocks i).end_address > addr
      then { s.highmem_blocks i with freed := true, exec_count := 0 }
      else s.highmem_blocks i := by
  rw [write_unfold_highmem s addr v ok h1 h2]

/-- Blocks registered at offsets 0 (`end_address = 0xffa0`) and 2
(`end_address = 0xff90`), both live, used by the C1 boundary checks. -/
def c1State : gb_state :=
  { zeroState MBC.NONE with highmem_blocks := fun i =>
      if i = 0 then { exec_count := 1, end_address := 0xffa0, freed := false }
      else if i = 2 then { exec_count := 1, end_address := 0xff90, freed := false }
      else { exec_count := 0, end_address := 0, freed := false } }

/-- Claim C1: for a write at `addr ∈ [0xff80, 0x10000)`, every live block
whose start offset lies in the scanned prefix (`i < addr - 0xff80`) and
whose `end_address` is strictly greater than `addr` ends up freed with
`exec_count = 0`; blocks with `end_address ≤ addr`, and blocks outside
the scanned prefix, are untouched; the byte at `addr` holds the written
value. Concretely, the live block at offset 0 with `end_address = 0xffa0`
survives a write at `0xffa5`, and the live block at offset 2 with
`end_address = 0xff90` is invalidated by a write at `0xff85`. -/
theorem C1_highmem_invalidation (s : gb_state) (addr v : Nat) (ok : Bool)
    (h1 : 0xff80 ≤ addr) (h2 : addr < 0x10000) (hv : v < 256) :
    (∀ i, i < addr - 0xff80 → (s.highmem_blocks i).exec_count ≠ 0 →
        addr < (s.highmem_blocks i).end_address →
        ((gb_memory_write s addr v ok).highmem_blocks i).exec_count = 0 ∧
        ((gb_memory_write s addr v ok).highmem_blocks i).freed = true) ∧
    (∀ i, (s.highmem_blocks i).end_address ≤ addr →
        (gb_memory_write s addr v ok).highmem_blocks i = s.highmem_blocks i) ∧
    (∀ i, addr - 0xff80 ≤ i →
        (gb_memory_write s addr v ok).highmem_blocks i = s.highmem_blocks i) ∧
    (gb_memory_write s addr v ok).mem.mem addr = v ∧
    ((gb_memory_write c1State 0xffa5 1 true).highmem_blocks 0).exec_count = 1 ∧
    ((gb_memory_write c1State 0xffa5 1 true).highmem_blocks 0).freed = false ∧
    ((gb_memory_write c1State 0xff85 1 true).highmem_blocks 2).exec_count = 0 ∧
    ((gb_memory_write c1State 0xff85 1 true).highmem_blocks 2).freed = true := by
  refine ⟨?_, ?_, ?_, ?_, by decide, by decide, by decide, by decide⟩
  · intro i hi hexec hend
    rw [write_highmem_blocks s addr v ok h1 h2 i, if_pos ⟨hi, hexec, hend⟩]
    exact ⟨rfl, rfl⟩
  · intro i hend
    rw [write_highmem_blocks s addr v ok h1 h2 i, if_neg (by omega)]
  · intro i hout
    rw [write_highmem_blocks s addr v ok h1 h2 i, if_neg (by omega)]
  · rw [write_unfold_highmem s addr v ok h1 h2]
    show memUpdate s.mem.mem addr (v % 0x100) addr = v
    rw [memUpdate, if_pos rfl]
    exact Nat.mod_eq_of_lt hv

/-- Claim C1, witness: instantiates the invalidation theorem at the
two-block session with a write of `1` at `0xff85`. -/
theorem C1_witness :
    (0xff80 : Nat) ≤ 0xff85 ∧ (0xff85 : Nat) < 0x10000 ∧ (1 : Nat) < 256 ∧
    ((∀ i, i < 0xff85 - 0xff80 → (c1State.highmem_blocks i).exec_count ≠ 0 →
        0xff85 < (c1State.highmem_blocks i).end_address →
        ((gb_memory_write c1State 0xff85 1 true).highmem_blocks i).exec_count = 0 ∧
        ((gb_memory_write c1State 0xff85 1 true).highmem_blocks i).freed = true) ∧
     (∀ i, (c1State.highmem_blocks i).end_address ≤ 0xff85 →
        (gb_memory_write c1State 0xff85 1 true).highmem_blocks i = c1State.highmem_blocks i) ∧
     (∀ i, 0xff85 - 0xff80 ≤ i →
        (gb_memory_write c1State 0xff85 1 true).highmem_blocks i = c1State.highmem_blocks i) ∧
     (gb_memory_write c1State 0xff85 1 true).mem.mem 0xff85 = 1 ∧
     ((gb_memory_write c1State 0xffa5 1 true).highmem_blocks 0).exec_count = 1 ∧
     ((gb_memory_write c1State 0xffa5 1 true).highmem_blocks 0).freed = false ∧
     ((gb_memory_write c1State 0xff85 1 true).highmem_blocks 2).exec_count = 0 ∧
     ((gb_memory_write c1State 0xff85 1 true).highmem_blocks 2).freed = true) :=
  ⟨by decide, by decide, by decide,
    C1_highmem_invalidation c1State 0xff85 1 true (by decide) (by decide) (by decide)⟩

/-- An MBC3 memory with the RTC register exposed at `0xa000` (the window
byte `0x42` is the RTC value, not RAM) and an all-zero bank store, used
to show the round-trip failure under `rtc_access`. -/
def rtcDemoMem : gb_memory :=
  { mem := memUpdate (fun _ => 0) 0xa000 0x42, ram_banks := fun _ => 0, mbc := MBC.MBC3,
    mbc_mode := 0, mbc_data := 0, current_rom_bank := 1, current_ram_bank := 0,
    rtc_access := true }

/-- Claim C2: with `rtc_access` false throughout, the RAM window
round-trips through the bank store: if bank `a` is current, then after
switching to a different bank `b` and back to `a`, every window byte is
restored to its previous value (the writes into the window between the
selections are arbitrary, since the window contents `m1.mem` are
arbitrary here). The final two conjuncts show the guarantee fails while
an RTC-exposing selection is active: the byte `0x42` exposed at `0xa000`
of `rtcDemoMem` is not saved by the switch away, so switching back
yields `0`. -/
theorem C2_ram_bank_roundtrip (m1 : gb_memory) (a b o : Nat)
    (hab : a ≠ b) (hcur : m1.current_ram_bank = a) (hrtc : m1.rtc_access = false)
    (ho : o < 0x2000) :
    (gb_memory_change_ram_bank (gb_memory_change_ram_bank m1 b) a).mem (0xa000 + o) =
      m1.mem (0xa000 + o) ∧
    (gb_memory_change_ram_bank (gb_memory_change_ram_bank rtcDemoMem 1) 0).mem 0xa000 = 0 ∧
    rtcDemoMem.mem 0xa000 = 0x42 := by
  refine ⟨?_, by decide, by decide⟩
  have hba : b ≠ a := Ne.symm hab
  simp only [gb_memory_change_ram_bank, hcur, hrtc, if_neg hab, if_neg hba,
    Bool.false_eq_true, if_false]
  rw [if_pos (show (0xa000 : Nat) ≤ 0xa000 + o ∧ 0xa000 + o < 0xc000 by omega)]
  rw [show (0xa000 : Nat) + o - 0xa000 = o by omega]
  rw [if_neg (show ¬(b * 0x2000 ≤ a * 0x2000 + o ∧ a * 0x2000 + o < b * 0x2000 + 0x2000) by omega)]
  rw [if_pos (show a * 0x2000 ≤ a * 0x2000 + o ∧ a * 0x2000 + o < a * 0x2000 + 0x2000 by omega)]
  congr 1
  omega

/-- A memory with RAM bank 3 current, `rtc_access` clear, and a marker
byte `0x99` in the window, used by the C2 witness. -/
def c2Mem : gb_memory :=
  { mem := memUpdate (fun _ => 0) 0xa010 0x99, ram_banks := fun _ => 0, mbc := MBC.MBC1,
    mbc_mode := 1, mbc_data := 0, current_rom_bank := 1, current_ram_bank := 3,
    rtc_access := false }

/-- Claim C2, witness: instantiates the round-trip theorem at `c2Mem`
with banks `3` and `1` and window offset `0x10`. -/
theorem C2_witness :
    (3 : Nat) ≠ 1 ∧ c2Mem.current_ram_bank = 3 ∧ c2Mem.rtc_access = false ∧
    (0x10 : Nat) < 0x2000 ∧
    ((gb_memory_change_ram_bank (gb_memory_change_ram_bank c2Mem 1) 3).mem (0xa000 + 0x10) =
      c2Mem.mem (0xa000 + 0x10) ∧
     (gb_memory_change_ram_bank (gb_memory_change_ram_bank rtcDemoMem 1) 0).mem 0xa000 = 0 ∧
     rtcDemoMem.mem 0xa000 = 0x42) :=
  ⟨by decide, by decide, by decide, by decide,
    C2_ram_bank_roundtrip c2Mem 3 1 0x10 (by decide) (by decide) (by decide) (by decide)⟩

lemma mbc1_compose_ne_zero (m : gb_memory) (v : Nat) : mbc1_compose m v ≠ 0 :=
  mbc1_adjust_ne_zero _

lemma write_mbc (s : gb_state) (a v : Nat) (ok : Bool) :
    (gb_memory_write s a v ok).mem.mbc = s.mem.mbc := by
  unfold gb_memory_write gb_memory_write_body
  split_ifs <;>
    simp [change_ram_bank_mbc, change_rom_bank_mbc, access_rtc_mbc]

lemma write_rom_nonzero (s : gb_state) (a v : Nat) (ok : Bool)
    (h5 : mbc5_family s.mem.mbc = false)
    (h : s.mem.current_rom_bank ≠ 0) :
    (gb_memory_write s a v ok).mem.current_rom_bank ≠ 0 := by
  unfold gb_memory_write gb_memory_write_body
  split_ifs <;>
    first
      | exact h
      | exact change_rom_bank_ne_zero s.mem _ ok (mbc1_compose_ne_zero s.mem _) h
      | exact change_rom_bank_ne_zero s.mem _ ok (by omega) h
      | exact change_rom_bank_ne_zero s.mem _ ok (by assumption) h
      | simpa [change_ram_bank_rom] using h
      | simp_all

/-- Claim C4, counterexample: the state reached from an MBC5 session by
the single guest write `(0x2100, 0x00)` has `current_rom_bank = 0`, so
bank 0 is selected into the switchable window from a reachable state,
contrary to the claim's "for every supported MBC variant". -/
theorem C4_counterexample :
    Reach (gb_memory_write (zeroState MBC.MBC5) 0x2100 0 true) ∧
    (gb_memory_write (zeroState MBC.MBC5) 0x2100 0 true).mem.current_rom_bank = 0 :=
  ⟨Reach.step _ _ _ _ (Reach.init _ _ _ _ _), by decide⟩

/-- Claim C4 (amended): over every reachable state of the memory core
whose cartridge variant is not in the MBC5 family, `current_rom_bank` is
non-zero — bank 0 is never selected into the switchable window by the
MBC1/MBC3 families (which remap bank-0 requests) or by the inert
variants; the MBC5 family is excluded because it legally selects bank 0. -/
theorem C4_rom_bank_nonzero (s : gb_state) (hs : Reach s) :
    mbc5_family s.mem.mbc = false → s.mem.current_rom_bank ≠ 0 := by
  induction hs with
  | init rom rb mbc k blocks =>
    intro _
    simp [initState, initMemory]
  | step s a v ok hr ih =>
    intro h5
    rw [write_mbc] at h5
    exact write_rom_nonzero s a v ok h5 (ih h5)

/-- Claim C4, witness: instantiates the invariant at a freshly
initialized MBC1 session. -/
theorem C4_witness :
    Reach (zeroState MBC.MBC1) ∧ mbc5_family (zeroState MBC.MBC1).mem.mbc = false ∧
    (zeroState MBC.MBC1).mem.current_rom_bank ≠ 0 :=
  ⟨Reach.init _ _ _ _ _, by decide,
    C4_rom_bank_nonzero (zeroState MBC.MBC1) (Reach.init _ _ _ _ _) (by decide)⟩

end Jitboy
